import Mathlib

/-!
# Verification of the unifi-network-mcp tool/manager layer

A shallow embedding, in Lean 4, of the parts of the `unifi-network-mcp`
Python repository that the specification's claims refer to:

* the JSON-like values exchanged with the UniFi controller are modelled by
  `PyVal` (Python `dict`s become insertion-ordered association lists);
* each manager method (`src/managers/*.py`) and tool handler
  (`src/tools/*.py`) is translated into a pure Lean function; an awaited
  call into a lower layer (the connection manager, an external manager)
  becomes an explicit argument carrying that call's outcome, and a Python
  exception becomes the `Except.error` constructor;
* `validate_mac_address` (`src/validators.py`) is translated together with
  the fragment of Python's `int(s, 16)` parsing that it relies on.

Strings are handled at the `List Char` level throughout (a Python `str` is
a sequence of code points); only the ASCII fragment of `str.lower` is
modelled, which covers every input the claims quantify over.
-/

set_option autoImplicit false

namespace UnifiMcp

/-- JSON-like values as handled by the Python code: `None`, booleans,
integers, strings, lists and (insertion-ordered) dictionaries.  A Python
`dict` with string keys is represented as an association list in insertion
order; the well-formedness fact that a real `dict` never holds a duplicate
key is stated as a hypothesis where a proof needs it. -/
inductive PyVal where
  | none : PyVal
  | bool (b : Bool) : PyVal
  | int (n : Int) : PyVal
  | str (s : String) : PyVal
  | list (xs : List PyVal) : PyVal
  | dict (kvs : List (String × PyVal)) : PyVal

/-- A Python dictionary body: string keys to values, in insertion order. -/
abbrev Assoc := List (String × PyVal)

/-- `d.get(k)` / `d[k]` read on a dict: first binding of the key wins
(a genuine `dict` holds each key at most once). -/
def dictGet : Assoc → String → Option PyVal
  | [], _ => Option.none
  | (k', v') :: rest, k => if k' = k then some v' else dictGet rest k

/-- `d[k] = v` on a dict: replace the value in place if the key is
present (keeping its position, as CPython does), else append the new
binding at the end. -/
def dictSet : Assoc → String → PyVal → Assoc
  | [], k, v => [(k, v)]
  | (k', v') :: rest, k, v =>
      if k' = k then (k, v) :: rest else (k', v') :: dictSet rest k v

/-- `d.pop(k, None)` on a dict: drop the first binding of the key. -/
def dictPop : Assoc → String → Assoc
  | [], _ => []
  | (k', v') :: rest, k => if k' = k then rest else (k', v') :: dictPop rest k

/-- `merged = existing.copy(); for key, value in update.items():
merged[key] = value` — the shallow merge used by `update_network` and
`update_wlan` (`src/managers/network_manager.py`). -/
def mergeDict (existing : Assoc) (update : Assoc) : Assoc :=
  update.foldl (fun acc kv => dictSet acc kv.1 kv.2) existing

theorem dictGet_dictSet (d : Assoc) (k : String) (v : PyVal) (k' : String) :
    dictGet (dictSet d k v) k' = if k = k' then some v else dictGet d k' := by
  induction d with
  | nil =>
      by_cases h : k = k' <;> simp [dictSet, dictGet, h]
  | cons hd tl ih =>
      obtain ⟨k1, v1⟩ := hd
      by_cases h1 : k1 = k
      · subst h1
        by_cases h2 : k1 = k' <;> simp [dictSet, dictGet, h2]
      · by_cases h2 : k1 = k'
        · subst h2
          have hne : ¬ k = k1 := fun h => h1 h.symm
          simp [dictSet, dictGet, h1, hne]
        · simp [dictSet, dictGet, h1, h2, ih]

theorem mergeDict_cons (existing : Assoc) (k : String) (v : PyVal) (rest : Assoc) :
    mergeDict existing ((k, v) :: rest) = mergeDict (dictSet existing k v) rest := rfl

/-- A key not named in the update keeps its original value after the merge. -/
theorem mergeDict_get_of_not_mem (existing update : Assoc) (k : String)
    (h : k ∉ update.map Prod.fst) :
    dictGet (mergeDict existing update) k = dictGet existing k := by
  induction update generalizing existing with
  | nil => rfl
  | cons hd tl ih =>
      obtain ⟨k1, v1⟩ := hd
      have hne : k ≠ k1 := by
        intro hk; exact h (by simp [hk])
      have htl : k ∉ tl.map Prod.fst := by
        intro hk; exact h (by simp [hk])
      rw [mergeDict_cons, ih _ htl, dictGet_dictSet, if_neg (fun hh => hne hh.symm)]

/-- A key named in the update (whose keys are duplicate-free, as in any
Python dict) gets exactly its new value after the merge. -/
theorem mergeDict_get_of_mem (existing update : Assoc) (k : String) (v : PyVal)
    (hnd : (update.map Prod.fst).Nodup) (hmem : (k, v) ∈ update) :
    dictGet (mergeDict existing update) k = some v := by
  induction update generalizing existing with
  | nil => cases hmem
  | cons hd tl ih =>
      obtain ⟨k1, v1⟩ := hd
      have hnd' : (k1 :: tl.map Prod.fst).Nodup := by
        simpa only [List.map_cons] using hnd
      obtain ⟨hnd1, hnd2⟩ := List.nodup_cons.mp hnd'
      rcases List.mem_cons.mp hmem with heq | htl
      · have hk : k = k1 := congrArg Prod.fst heq
        have hv : v = v1 := congrArg Prod.snd heq
        subst hk; subst hv
        rw [mergeDict_cons, mergeDict_get_of_not_mem _ _ _ hnd1, dictGet_dictSet,
          if_pos rfl]
      · rw [mergeDict_cons]; exact ih _ hnd2 htl

/-- Python truthiness (`if x:`) for the modelled values. -/
def pyTruthy : PyVal → Bool
  | .none => false
  | .bool b => b
  | .int n => n != 0
  | .str s => s ≠ ""
  | .list xs => !xs.isEmpty
  | .dict kvs => !kvs.isEmpty

/-- Python `==` between a fetched value (possibly `None` for a missing key)
and a string literal: equal exactly when the value is that string. -/
def pyEqStr : Option PyVal → String → Bool
  | some (.str t), s => t = s
  | _, _ => false

/-- Python `==` between a fetched value and an integer literal. -/
def pyEqInt : Option PyVal → Int → Bool
  | some (.int m), n => m = n
  | _, _ => false

/-- Attribute access `d.attr` on a plain Python `dict`: a dict carries no
such attributes, so it raises `AttributeError` for the names the code uses
(`id`, `purpose`, `enabled`). -/
def dictAttr (_d : Assoc) (attr : String) : Except String PyVal :=
  .error ("AttributeError: 'dict' object has no attribute '" ++ attr ++ "'")

/-! ## NetworkManager (`src/managers/network_manager.py`)

`get_networks` / `get_wlans` fetch lists from the controller; the fetched
lists appear below as explicit arguments (`networks`, `wlans`: the raw
dictionaries; for WLANs, `Wlan(raw).raw` is `raw` itself and `Wlan.id`
reads `raw["_id"]`).  The outcome of the final HTTP request is the
explicit argument `requestOk`; a mutating function returns the pair
(returned boolean, payload of the request it issued — `none` when no
mutation request was issued). -/

/-- `get_network_details`: first network whose `"_id"` equals the id. -/
def get_network_details (networks : List Assoc) (network_id : String) :
    Option Assoc :=
  networks.find? (fun n => pyEqStr (dictGet n "_id") network_id)

/-- `get_wlan_details`: first WLAN whose `"_id"` equals the id; returns the
raw dictionary. -/
def get_wlan_details (wlans : List Assoc) (wlan_id : String) : Option Assoc :=
  wlans.find? (fun w => pyEqStr (dictGet w "_id") wlan_id)

/-- `update_network`: connection check, empty-update early return, fetch of
the existing object, shallow merge, PUT of the merged object. -/
def update_network (connected : Bool) (networks : List Assoc)
    (network_id : String) (update_data : Assoc) (requestOk : Bool) :
    Bool × Option Assoc :=
  if !connected then (false, Option.none)
  else if update_data.isEmpty then (true, Option.none)
  else
    match get_network_details networks network_id with
    | Option.none => (false, Option.none)
    | some existing => (requestOk, some (mergeDict existing update_data))

/-- `update_wlan`: same shape as `update_network`, over the WLAN list. -/
def update_wlan (connected : Bool) (wlans : List Assoc)
    (wlan_id : String) (update_data : Assoc) (requestOk : Bool) :
    Bool × Option Assoc :=
  if !connected then (false, Option.none)
  else if update_data.isEmpty then (true, Option.none)
  else
    match get_wlan_details wlans wlan_id with
    | Option.none => (false, Option.none)
    | some existing => (requestOk, some (mergeDict existing update_data))

/-- The WAN-check loop of `delete_network`: `for network in networks: if
network.id == network_id and network.purpose == 'wan': ...; break`.  The
iterated elements are plain dictionaries, so the first attribute read
raises. -/
def wanCheckLoop (networks : List Assoc) (network_id : String) :
    Except String Unit :=
  match networks with
  | [] => .ok ()
  | n :: rest => do
      let idv ← dictAttr n "id"
      if pyEqStr (some idv) network_id then do
        let pv ← dictAttr n "purpose"
        if pyEqStr (some pv) "wan" then pure ()
        else wanCheckLoop rest network_id
      else wanCheckLoop rest network_id

/-- `delete_network`: runs the WAN-check loop, then issues the DELETE;
everything sits inside one `try`, whose `except` returns `False`.  Result:
(returned boolean, whether the DELETE request was issued). -/
def delete_network (networks : List Assoc) (network_id : String)
    (requestOk : Bool) : Bool × Bool :=
  match wanCheckLoop networks network_id with
  | .error _ => (false, false)
  | .ok _ => (requestOk, true)

/-- `toggle_wlan`: fetches the WLAN's raw dictionary via
`get_wlan_details`, then reads `wlan.enabled` — an attribute access on a
dict — inside the `try`.  Result: (returned boolean, whether a PUT was
issued). -/
def toggle_wlan (wlans : List Assoc) (wlan_id : String) (requestOk : Bool) :
    Bool × Bool :=
  match get_wlan_details wlans wlan_id with
  | Option.none => (false, false)
  | some wlan =>
      match dictAttr wlan "enabled" with
      | .error _ => (false, false)
      | .ok v =>
          let _newState := !(pyTruthy v)
          (requestOk, true)

/-- C1.  For `update_network` and `update_wlan` on an existing resource,
the PUT payload is the fetched object with the caller's partial update
shallow-merged over it: every original field not named in `update_data` is
unchanged in the payload, every field named in `update_data` carries its
new value, and the payload is the full merged object — never only the new
fields. -/
theorem c1_update_merge_before_put
    (requestOk : Bool) (networks wlans : List Assoc)
    (network_id wlan_id : String) (upd : Assoc)
    (hnd : (upd.map Prod.fst).Nodup) (hne : upd ≠ [])
    (exN exW : Assoc)
    (hN : get_network_details networks network_id = some exN)
    (hW : get_wlan_details wlans wlan_id = some exW) :
    (update_network true networks network_id upd requestOk).2
        = some (mergeDict exN upd) ∧
    (update_wlan true wlans wlan_id upd requestOk).2
        = some (mergeDict exW upd) ∧
    (∀ k, k ∉ upd.map Prod.fst →
        dictGet (mergeDict exN upd) k = dictGet exN k ∧
        dictGet (mergeDict exW upd) k = dictGet exW k) ∧
    (∀ k v, (k, v) ∈ upd →
        dictGet (mergeDict exN upd) k = some v ∧
        dictGet (mergeDict exW upd) k = some v) := by
  have hemp : upd.isEmpty = false := by
    cases upd with
    | nil => exact absurd rfl hne
    | cons a l => rfl
  refine ⟨?_, ?_, ?_, ?_⟩
  · simp [update_network, hemp, hN]
  · simp [update_wlan, hemp, hW]
  · intro k hk
    exact ⟨mergeDict_get_of_not_mem _ _ _ hk, mergeDict_get_of_not_mem _ _ _ hk⟩
  · intro k v hkv
    exact ⟨mergeDict_get_of_mem _ _ _ _ hnd hkv, mergeDict_get_of_mem _ _ _ _ hnd hkv⟩

/-- Witness for C1 at a concrete network/WLAN list and a one-field update:
the original `vlan` field survives the merge and the updated `name` field
takes its new value. -/
theorem c1_update_merge_before_put_witness :
    (update_network true
        [[("_id", PyVal.str "n1"), ("name", PyVal.str "LAN"),
          ("purpose", PyVal.str "corporate"), ("vlan", PyVal.int 10)]]
        "n1" [("name", PyVal.str "Renamed")] true).2
      = some [("_id", PyVal.str "n1"), ("name", PyVal.str "Renamed"),
          ("purpose", PyVal.str "corporate"), ("vlan", PyVal.int 10)] ∧
    dictGet [("_id", PyVal.str "n1"), ("name", PyVal.str "Renamed"),
          ("purpose", PyVal.str "corporate"), ("vlan", PyVal.int 10)] "vlan"
      = some (PyVal.int 10) ∧
    dictGet [("_id", PyVal.str "n1"), ("name", PyVal.str "Renamed"),
          ("purpose", PyVal.str "corporate"), ("vlan", PyVal.int 10)] "name"
      = some (PyVal.str "Renamed") := by
  have h := c1_update_merge_before_put true
    [[("_id", PyVal.str "n1"), ("name", PyVal.str "LAN"),
      ("purpose", PyVal.str "corporate"), ("vlan", PyVal.int 10)]]
    [[("_id", PyVal.str "w1"), ("name", PyVal.str "Wifi"),
      ("enabled", PyVal.bool true)]]
    "n1" "w1" [("name", PyVal.str "Renamed")]
    (by simp) (by simp)
    [("_id", PyVal.str "n1"), ("name", PyVal.str "LAN"),
      ("purpose", PyVal.str "corporate"), ("vlan", PyVal.int 10)]
    [("_id", PyVal.str "w1"), ("name", PyVal.str "Wifi"),
      ("enabled", PyVal.bool true)]
    rfl rfl
  refine ⟨?_, ?_, ?_⟩
  · exact h.1.trans (by rfl)
  · rfl
  · rfl

/-- C8.  On any non-empty fetched network list (of plain dictionaries),
`delete_network` returns `False` and never issues the DELETE request: the
WAN-check loop's `network.id` attribute read raises on the first element
and the surrounding `except` swallows it.  Consequently `delete_network`
can only succeed when the fetched list is empty. -/
theorem c8_delete_network_nonempty_always_fails
    (networks : List Assoc) (network_id : String) (requestOk : Bool)
    (h : networks ≠ []) :
    delete_network networks network_id requestOk = (false, false) ∧
    (∀ nets : List Assoc, ∀ rid : String, ∀ rok : Bool,
      (delete_network nets rid rok).1 = true → nets = []) := by
  constructor
  · cases networks with
    | nil => exact absurd rfl h
    | cons n rest => rfl
  · intro nets rid rok hsucc
    cases nets with
    | nil => rfl
    | cons n rest =>
        have hred : delete_network (n :: rest) rid rok = (false, false) := rfl
        rw [hred] at hsucc
        exact absurd hsucc (by simp)

/-- Witness for C8: a one-element network list makes `delete_network`
return `False` with no DELETE issued, even though the request layer would
have succeeded. -/
theorem c8_delete_network_nonempty_always_fails_witness :
    delete_network [[("_id", PyVal.str "n1"), ("purpose", PyVal.str "wan")]]
        "n1" true = (false, false) :=
  (c8_delete_network_nonempty_always_fails
    [[("_id", PyVal.str "n1"), ("purpose", PyVal.str "wan")]] "n1" true
    (by simp)).1

/-- C9.  Whenever `get_wlan_details` finds the WLAN (returning its raw
dictionary), `toggle_wlan` returns `False` without issuing any PUT: the
`wlan.enabled` attribute read on the dictionary raises and is caught.
Moreover `toggle_wlan` never issues a PUT on any input, so it never
changes any WLAN's enabled state. -/
theorem c9_toggle_wlan_never_toggles
    (wlans : List Assoc) (wlan_id : String) (requestOk : Bool) (w : Assoc)
    (h : get_wlan_details wlans wlan_id = some w) :
    toggle_wlan wlans wlan_id requestOk = (false, false) ∧
    (∀ ws : List Assoc, ∀ wid : String, ∀ rok : Bool,
      (toggle_wlan ws wid rok).2 = false) := by
  constructor
  · simp [toggle_wlan, h, dictAttr]
  · intro ws wid rok
    unfold toggle_wlan
    cases hf : get_wlan_details ws wid with
    | none => rfl
    | some w' => rfl

/-- Witness for C9: on a WLAN list containing the looked-up id,
`toggle_wlan` returns `False` and sends nothing. -/
theorem c9_toggle_wlan_never_toggles_witness :
    toggle_wlan [[("_id", PyVal.str "w1"), ("enabled", PyVal.bool true)]]
        "w1" true = (false, false) :=
  (c9_toggle_wlan_never_toggles
    [[("_id", PyVal.str "w1"), ("enabled", PyVal.bool true)]] "w1" true
    [("_id", PyVal.str "w1"), ("enabled", PyVal.bool true)] rfl).1

/-! ## The `ipaddress` fragment used by `DHCPManager`

IPv4 addresses are modelled as `Nat` below `2^32`.  `parseIPv4` follows
CPython's `ipaddress.ip_address` for dotted-quad strings: exactly four
octets, each 1–3 ASCII digits with no leading zero, value at most 255.
`parseIPNetwork` follows `ipaddress.ip_network` (strict, the default) for
`addr` and `addr/prefix` forms: the declared address must have no host
bits set, otherwise the call raises and the caller's `except` skips the
network.  IPv6 literals are outside the modelled fragment (every subnet
and address the claims quantify over is IPv4). -/

/-- ASCII decimal digit test. -/
def isDigitChar (c : Char) : Bool := '0' ≤ c && c ≤ '9'

/-- Decimal value of a digit string. -/
def digitsVal (l : List Char) : Nat :=
  l.foldl (fun a c => a * 10 + (c.toNat - 48)) 0

/-- Python `s.split(sep)` for a one-character separator (the splits the
`ipaddress` parser performs on `"."` and `"/"`). -/
def splitOnChar (sep : Char) : List Char → List (List Char)
  | [] => [[]]
  | c :: rest =>
      match splitOnChar sep rest with
      | [] => [[]]
      | g :: gs => if c = sep then [] :: g :: gs else (c :: g) :: gs

/-- One dotted-quad octet, per CPython `_ip_int_from_string`: 1–3 ASCII
digits, no leading zero, value at most 255. -/
def parseOctet (l : List Char) : Option Nat :=
  if l.length = 0 ∨ l.length > 3 then Option.none
  else if !(l.all isDigitChar) then Option.none
  else if l.length > 1 ∧ l.head? = some '0' then Option.none
  else if digitsVal l ≤ 255 then some (digitsVal l) else Option.none

/-- `ipaddress.ip_address` on an IPv4 dotted-quad string. -/
def parseIPv4 (s : String) : Option Nat :=
  match (splitOnChar '.' s.data).map parseOctet with
  | [some a, some b, some c, some d] => some (((a * 256 + b) * 256 + c) * 256 + d)
  | _ => Option.none

/-- The prefix length of a CIDR string, per CPython
`_prefix_from_prefix_string`: nonempty ASCII digits, value at most 32. -/
def parsePrefix (l : List Char) : Option Nat :=
  if l ≠ [] ∧ l.all isDigitChar then
    if digitsVal l ≤ 32 then some (digitsVal l) else Option.none
  else Option.none

/-- `ipaddress.ip_network(s)` (strict): network address and prefix length;
`none` models the raising cases (bad syntax, prefix out of range, host
bits set). -/
def parseIPNetwork (s : String) : Option (Nat × Nat) :=
  match splitOnChar '/' s.data with
  | [addr] => (parseIPv4 ⟨addr⟩).map (fun a => (a, 32))
  | [addr, pfx] =>
      match parseIPv4 ⟨addr⟩, parsePrefix pfx with
      | some a, some p => if a % 2 ^ (32 - p) = 0 then some (a, p) else Option.none
      | _, _ => Option.none
  | _ => Option.none

/-- `target_ip in network_obj`: the target shares the network's first
`p` bits. -/
def ipInNetwork (tip : Nat) (net : Nat × Nat) : Bool :=
  tip / 2 ^ (32 - net.2) = net.1 / 2 ^ (32 - net.2)

/-! ## DHCPManager (`src/managers/dhcp_manager.py`)

Clients live in `connection.controller.clients`; the attributes the code
reads become fields of `UClient` (an `Option` field is `none` exactly when
`hasattr`/`getattr` would miss the attribute).  Fetched network lists are
explicit arguments, request outcomes explicit booleans; a raising call
outside any `try` is an `Except.error` result of the manager itself. -/

structure UClient where
  id : String
  mac : String
  use_fixedip : Bool := false
  fixed_ip : Option String := Option.none
  network_id : Option String := Option.none
  ip : Option String := Option.none
  name : Option String := Option.none
  hostname : Option String := Option.none
  noted : Bool := false
  blocked : Bool := false

/-- ASCII fragment of Python `str.lower`. -/
def asciiLower (c : Char) : Char :=
  if 65 ≤ c.toNat ∧ c.toNat ≤ 90 then Char.ofNat (c.toNat + 32) else c

/-- `s.lower()` (ASCII fragment). -/
def pyLowerStr (s : String) : String := ⟨s.data.map asciiLower⟩

/-- One iteration of the subnet auto-detection loop body of
`set_client_fixed_ip` / `create_dhcp_reservation`: read
`network.get('ip_subnet')`; when truthy, try to parse it and test
membership, any exception (unparsable subnet, missing `'_id'`) skipping
the network; on a hit return `network['_id']`.  A non-string `ip_subnet`
value is not produced by the controller and falls to the skip branch. -/
def networkMatchStep (n : Assoc) (tip : Nat) : Option PyVal :=
  match dictGet n "ip_subnet" with
  | some (PyVal.str s) =>
      if s ≠ "" then
        match parseIPNetwork s with
        | some net => if ipInNetwork tip net then dictGet n "_id" else Option.none
        | Option.none => Option.none
      else Option.none
  | _ => Option.none

/-- The auto-detection loop: first network that matches wins (`break`). -/
def autodetectNetwork (networks : List Assoc) (tip : Nat) : Option PyVal :=
  match networks with
  | [] => Option.none
  | n :: rest =>
      match networkMatchStep n tip with
      | some nid => some nid
      | Option.none => autodetectNetwork rest tip

/-- Modelled from the spec's words, for comparison with the source loop:
"subnet auto-detection returns the first network (in list order) whose
subnet contains the IP, or failure if none contains it". -/
def subnetContainsIp (n : Assoc) (tip : Nat) : Bool :=
  match dictGet n "ip_subnet" with
  | some (PyVal.str s) =>
      match parseIPNetwork s with
      | some net => ipInNetwork tip net
      | Option.none => false
  | _ => false

/-- Spec-side auto-detection: `_id` of the first containing network. -/
def specAutoDetect (networks : List Assoc) (tip : Nat) : Option PyVal :=
  (networks.find? (fun n => subnetContainsIp n tip)).bind (fun n => dictGet n "_id")

/-- Python truthiness of an optional fetched value (`if not x:` where `x`
may be a missing key / `None`). -/
def optTruthy : Option PyVal → Bool
  | some v => pyTruthy v
  | Option.none => false

/-- The `update_data` payload assembled by `set_client_fixed_ip`. -/
def fixedIpPayload (client : UClient) (fixed_ip : String) (nid : PyVal)
    (use_fixedip : Bool) : Assoc :=
  [("_id", PyVal.str client.id), ("use_fixedip", PyVal.bool use_fixedip)]
    ++ (if use_fixedip then
          [("fixed_ip", PyVal.str fixed_ip), ("network_id", nid)]
        else [])

/-- `set_client_fixed_ip`: find the client by (lower-cased) MAC,
auto-detect the network when none was supplied and a fixed IP is being
set, then PUT the client update.  Result: returned boolean and the PUT
payload (`none` when no request was issued); the `ipaddress.ip_address`
call sits outside any `try`, so an unparsable `fixed_ip` raises out of
the manager. -/
def set_client_fixed_ip (clients : List UClient) (client_mac fixed_ip : String)
    (network_id_arg : Option String) (use_fixedip : Bool)
    (networks : List Assoc) (requestOk : Bool) :
    Except String (Bool × Option Assoc) :=
  match clients.find? (fun c => pyLowerStr c.mac = pyLowerStr client_mac) with
  | Option.none => .ok (false, Option.none)
  | some client =>
      let nid0 : PyVal :=
        match network_id_arg with
        | Option.none => PyVal.none
        | some s => PyVal.str s
      if !(pyTruthy nid0) && use_fixedip then
        match parseIPv4 fixed_ip with
        | Option.none => .error ("ValueError: " ++ fixed_ip ++
            " does not appear to be an IPv4 or IPv6 address")
        | some tip =>
            match autodetectNetwork networks tip with
            | Option.none => .ok (false, Option.none)
            | some nid =>
                if !(pyTruthy nid) then .ok (false, Option.none)
                else .ok (requestOk,
                  some (fixedIpPayload client fixed_ip nid use_fixedip))
      else
        .ok (requestOk, some (fixedIpPayload client fixed_ip nid0 use_fixedip))

/-- `remove_client_fixed_ip`: delegates to `set_client_fixed_ip` with an
empty IP, no network, and `use_fixedip=False`. -/
def remove_client_fixed_ip (clients : List UClient) (client_mac : String)
    (networks : List Assoc) (requestOk : Bool) :
    Except String (Bool × Option Assoc) :=
  set_client_fixed_ip clients client_mac "" Option.none false networks requestOk

/-- `create_dhcp_reservation`: auto-detect the network when none was
supplied, fail when none matches, then POST the new user entry. -/
def create_dhcp_reservation (mac_address fixed_ip : String)
    (name : Option String) (network_id_arg : Option String)
    (networks : List Assoc) (requestOk : Bool) :
    Except String (Bool × Option Assoc) :=
  let nid0 : PyVal :=
    match network_id_arg with
    | Option.none => PyVal.none
    | some s => PyVal.str s
  let nidRes : Except String PyVal :=
    if !(pyTruthy nid0) then
      match parseIPv4 fixed_ip with
      | Option.none => .error ("ValueError: " ++ fixed_ip ++
          " does not appear to be an IPv4 or IPv6 address")
      | some tip =>
          match autodetectNetwork networks tip with
          | Option.none => .ok PyVal.none
          | some nid => .ok nid
    else .ok nid0
  match nidRes with
  | .error e => .error e
  | .ok nid =>
      if !(pyTruthy nid) then .ok (false, Option.none)
      else
        let user0 : Assoc :=
          [("mac", PyVal.str (pyLowerStr mac_address)),
           ("use_fixedip", PyVal.bool true),
           ("fixed_ip", PyVal.str fixed_ip),
           ("network_id", nid)]
        let user : Assoc :=
          match name with
          | some nm =>
              if nm ≠ "" then
                user0 ++ [("name", PyVal.str nm), ("noted", PyVal.bool true)]
              else user0
          | Option.none => user0
        .ok (requestOk, some user)

theorem networkMatchStep_eq (n : Assoc) (tip : Nat) :
    networkMatchStep n tip
      = if subnetContainsIp n tip then dictGet n "_id" else Option.none := by
  unfold networkMatchStep subnetContainsIp
  cases h : dictGet n "ip_subnet" with
  | none => rfl
  | some v =>
      cases v with
      | str s =>
          by_cases hs : s = ""
          · subst hs
            have hpe : parseIPNetwork "" = Option.none := by decide
            simp [hpe]
          · simp only [if_pos hs]
            split <;> rename_i hmatch
            · split <;> rename_i heq2
              · simp only [heq2] at hmatch
                simp [hmatch]
              · simp [heq2] at hmatch
            · split <;> rename_i heq2
              · simp only [heq2] at hmatch
                simp at hmatch
                simp [hmatch]
              · rfl
      | none => rfl
      | bool b => rfl
      | int m => rfl
      | list xs => rfl
      | dict kvs => rfl

theorem autodetect_eq_spec (networks : List Assoc) (tip : Nat)
    (hid : ∀ n ∈ networks, (dictGet n "_id").isSome) :
    autodetectNetwork networks tip = specAutoDetect networks tip := by
  induction networks with
  | nil => rfl
  | cons n rest ih =>
      have hn : (dictGet n "_id").isSome := hid n (by simp)
      have hrest : ∀ m ∈ rest, (dictGet m "_id").isSome :=
        fun m hm => hid m (by simp [hm])
      cases hc : subnetContainsIp n tip with
      | true =>
          obtain ⟨x, hx⟩ := Option.isSome_iff_exists.mp hn
          simp [autodetectNetwork, specAutoDetect, networkMatchStep_eq, hc, hx,
            List.find?_cons_of_pos]
      | false =>
          simp only [autodetectNetwork, specAutoDetect, networkMatchStep_eq, hc,
            if_false, Bool.false_eq_true]
          rw [List.find?_cons_of_neg _ (by simp [hc])]
          exact ih hrest

theorem autodetect_none_of_no_match (networks : List Assoc) (tip : Nat)
    (h : ∀ n ∈ networks, subnetContainsIp n tip = false) :
    autodetectNetwork networks tip = Option.none := by
  induction networks with
  | nil => rfl
  | cons n rest ih =>
      have hn : subnetContainsIp n tip = false := h n (by simp)
      simp only [autodetectNetwork, networkMatchStep_eq, hn,
        Bool.false_eq_true, if_false]
      exact ih (fun m hm => h m (by simp [hm]))

/-- C5.  Subnet auto-detection in `set_client_fixed_ip` and
`create_dhcp_reservation` (no `network_id` supplied) selects the first
network in list order whose parsed `ip_subnet` CIDR contains the target
IP, skipping networks whose subnet is absent or unparsable; it lands in
the sent payload's `network_id`; and when no network's subnet contains
the IP both operations return `False` without issuing the mutation. -/
theorem c5_subnet_autodetection
    (networks : List Assoc) (tip : Nat)
    (hid : ∀ n ∈ networks, (dictGet n "_id").isSome) :
    autodetectNetwork networks tip = specAutoDetect networks tip ∧
    (∀ (clients : List UClient) (client_mac fixed_ip : String)
        (requestOk : Bool) (client : UClient) (nid : PyVal),
      clients.find? (fun c => pyLowerStr c.mac = pyLowerStr client_mac)
          = some client →
      parseIPv4 fixed_ip = some tip →
      specAutoDetect networks tip = some nid → pyTruthy nid = true →
      set_client_fixed_ip clients client_mac fixed_ip Option.none true
          networks requestOk
        = .ok (requestOk, some (fixedIpPayload client fixed_ip nid true)) ∧
      dictGet (fixedIpPayload client fixed_ip nid true) "network_id"
        = some nid) ∧
    ((∀ n ∈ networks, subnetContainsIp n tip = false) →
      ∀ (clients : List UClient) (client_mac fixed_ip mac_address : String)
        (name : Option String) (requestOk : Bool) (client : UClient),
      clients.find? (fun c => pyLowerStr c.mac = pyLowerStr client_mac)
          = some client →
      parseIPv4 fixed_ip = some tip →
      set_client_fixed_ip clients client_mac fixed_ip Option.none true
          networks requestOk
        = .ok (false, Option.none) ∧
      create_dhcp_reservation mac_address fixed_ip name Option.none
          networks requestOk
        = .ok (false, Option.none)) := by
  refine ⟨autodetect_eq_spec networks tip hid, ?_, ?_⟩
  · intro clients client_mac fixed_ip requestOk client nid hfind hparse hdet htru
    have hauto : autodetectNetwork networks tip = some nid :=
      (autodetect_eq_spec networks tip hid).trans hdet
    have h0 : pyTruthy PyVal.none = false := rfl
    constructor
    · simp [set_client_fixed_ip, hfind, hparse, hauto, h0, htru]
    · simp [fixedIpPayload, dictGet]
  · intro hnone clients client_mac fixed_ip mac_address name requestOk client
      hfind hparse
    have hauto : autodetectNetwork networks tip = Option.none :=
      autodetect_none_of_no_match networks tip hnone
    have h0 : pyTruthy PyVal.none = false := rfl
    constructor
    · simp [set_client_fixed_ip, hfind, hparse, hauto, h0]
    · simp [create_dhcp_reservation, hparse, hauto, h0]

/-- Witness for C5: with two networks `10.0.0.0/24` and `192.168.1.0/24`,
the IP `192.168.1.50` selects the second network (first containing match)
and its id lands in the payload, while `10.9.9.9` matches no subnet and
both operations fail without a mutation. -/
theorem c5_subnet_autodetection_witness :
    autodetectNetwork
        [[("_id", PyVal.str "n1"), ("ip_subnet", PyVal.str "10.0.0.0/24")],
         [("_id", PyVal.str "n2"), ("ip_subnet", PyVal.str "192.168.1.0/24")]]
        3232235826 = some (PyVal.str "n2") ∧
    set_client_fixed_ip
        [⟨"c1", "aa:bb:cc:dd:ee:ff", false, Option.none, Option.none,
          Option.none, Option.none, Option.none, false, false⟩]
        "aa:bb:cc:dd:ee:ff" "192.168.1.50" Option.none true
        [[("_id", PyVal.str "n1"), ("ip_subnet", PyVal.str "10.0.0.0/24")],
         [("_id", PyVal.str "n2"), ("ip_subnet", PyVal.str "192.168.1.0/24")]]
        true
      = .ok (true, some (fixedIpPayload
          ⟨"c1", "aa:bb:cc:dd:ee:ff", false, Option.none, Option.none,
            Option.none, Option.none, Option.none, false, false⟩
          "192.168.1.50" (PyVal.str "n2") true)) ∧
    set_client_fixed_ip
        [⟨"c1", "aa:bb:cc:dd:ee:ff", false, Option.none, Option.none,
          Option.none, Option.none, Option.none, false, false⟩]
        "aa:bb:cc:dd:ee:ff" "10.9.9.9" Option.none true
        [[("_id", PyVal.str "n1"), ("ip_subnet", PyVal.str "10.0.0.0/24")],
         [("_id", PyVal.str "n2"), ("ip_subnet", PyVal.str "192.168.1.0/24")]]
        true
      = .ok (false, Option.none) ∧
    create_dhcp_reservation "aa:bb:cc:dd:ee:ff" "10.9.9.9"
        Option.none Option.none
        [[("_id", PyVal.str "n1"), ("ip_subnet", PyVal.str "10.0.0.0/24")],
         [("_id", PyVal.str "n2"), ("ip_subnet", PyVal.str "192.168.1.0/24")]]
        true
      = .ok (false, Option.none) := by
  have h1 := c5_subnet_autodetection
    [[("_id", PyVal.str "n1"), ("ip_subnet", PyVal.str "10.0.0.0/24")],
     [("_id", PyVal.str "n2"), ("ip_subnet", PyVal.str "192.168.1.0/24")]]
    3232235826 (by decide)
  have h2 := c5_subnet_autodetection
    [[("_id", PyVal.str "n1"), ("ip_subnet", PyVal.str "10.0.0.0/24")],
     [("_id", PyVal.str "n2"), ("ip_subnet", PyVal.str "192.168.1.0/24")]]
    168364297 (by decide)
  have hfail := h2.2.2 (by decide)
    [⟨"c1", "aa:bb:cc:dd:ee:ff", false, Option.none, Option.none,
      Option.none, Option.none, Option.none, false, false⟩]
    "aa:bb:cc:dd:ee:ff" "10.9.9.9" "aa:bb:cc:dd:ee:ff" Option.none true
    ⟨"c1", "aa:bb:cc:dd:ee:ff", false, Option.none, Option.none,
      Option.none, Option.none, Option.none, false, false⟩
    rfl rfl
  refine ⟨?_, ?_, hfail.1, hfail.2⟩
  · exact h1.1.trans rfl
  · exact (h1.2.1
      [⟨"c1", "aa:bb:cc:dd:ee:ff", false, Option.none, Option.none,
        Option.none, Option.none, Option.none, false, false⟩]
      "aa:bb:cc:dd:ee:ff" "192.168.1.50" true
      ⟨"c1", "aa:bb:cc:dd:ee:ff", false, Option.none, Option.none,
        Option.none, Option.none, Option.none, false, false⟩
      (PyVal.str "n2") rfl rfl rfl rfl).1

/-! ## `list_dhcp_reservations` and `list_available_ips` -/

/-- `d.get(k, default)`. -/
def dictGetD (d : Assoc) (k : String) (default : PyVal) : PyVal :=
  match dictGet d k with
  | some v => v
  | Option.none => default

/-- An optional string attribute as the Python value it contributes. -/
def optStrVal : Option String → PyVal
  | some s => PyVal.str s
  | Option.none => PyVal.none

/-- The reservation dictionary `list_dhcp_reservations` builds for one
fixed-IP client, including the best-effort augmentation with the owning
network's name and subnet (`break` on the first `_id` match; a failing
network fetch would merely skip the augmentation). -/
def reservationFor (c : UClient) (networks : List Assoc) : Assoc :=
  let base : Assoc :=
    [("_id", PyVal.str c.id), ("mac", PyVal.str c.mac),
     ("name", PyVal.str (c.name.getD (c.hostname.getD "Unknown"))),
     ("fixed_ip", optStrVal c.fixed_ip),
     ("network_id", optStrVal c.network_id),
     ("use_fixedip", PyVal.bool true),
     ("noted", PyVal.bool c.noted), ("blocked", PyVal.bool c.blocked)]
  match c.network_id with
  | some nid =>
      if nid ≠ "" then
        match networks.find? (fun n => pyEqStr (dictGet n "_id") nid) with
        | some network =>
            dictSet
              (dictSet base "network_name" (dictGetD network "name" (PyVal.str "Unknown")))
              "network_subnet" (dictGetD network "ip_subnet" (PyVal.str ""))
        | Option.none => base
      else base
  | Option.none => base

/-- `list_dhcp_reservations`: one reservation dict per client whose
`use_fixedip` flag is set. -/
def list_dhcp_reservations (clients : List UClient) (networks : List Assoc) :
    List Assoc :=
  (clients.filter (fun c => c.use_fixedip)).map (fun c => reservationFor c networks)

/-- `set(r['fixed_ip'] for r in reservations if r.get('fixed_ip'))` —
membership below is what matters, so the set is kept as a list. -/
def reservedIps (reservations : List Assoc) : List String :=
  reservations.filterMap (fun r =>
    match dictGet r "fixed_ip" with
    | some (PyVal.str s) => if s ≠ "" then some s else Option.none
    | _ => Option.none)

/-- Active client IPs: every client with an `ip` attribute contributes it. -/
def activeIps (clients : List UClient) : List String :=
  clients.filterMap (fun c => c.ip)

/-- The decimal digit character for `n < 10`. -/
def digitChar (n : Nat) : Char := Char.ofNat (48 + n)

/-- Decimal rendering of an octet value (always below 256). -/
def octetStr (n : Nat) : List Char :=
  if n < 10 then [digitChar n]
  else if n < 100 then [digitChar (n / 10), digitChar (n % 10)]
  else [digitChar (n / 100), digitChar (n / 10 % 10), digitChar (n % 10)]

/-- `str(IPv4Address(n))`: dotted quad. -/
def formatIPv4 (n : Nat) : String :=
  ⟨octetStr (n / 16777216 % 256) ++ '.' :: octetStr (n / 65536 % 256)
    ++ '.' :: octetStr (n / 256 % 256) ++ '.' :: octetStr (n % 256)⟩

/-- The `while current_ip <= stop_ip` enumeration loop, with explicit
fuel (`enumAvail` supplies exactly the loop's iteration count). -/
def enumAvailAux (reserved active : List String) :
    Nat → Nat → Nat → List String
  | 0, _, _ => []
  | fuel + 1, current, stop =>
      if current ≤ stop then
        let s := formatIPv4 current
        if !(reserved.contains s) && !(active.contains s) then
          s :: enumAvailAux reserved active fuel (current + 1) stop
        else enumAvailAux reserved active fuel (current + 1) stop
      else []

def enumAvail (current stop : Nat) (reserved active : List String) :
    List String :=
  enumAvailAux reserved active (stop + 1 - current) current stop

/-- `list_available_ips`: look up the network, bail out (empty list) on a
missing network, missing/falsy subnet or missing DHCP range, parse the
subnet (an unparsable one raises out of the manager — no surrounding
`try`), collect reserved and active IPs, enumerate the inclusive range
and keep the first 50 free addresses. -/
def list_available_ips (clients : List UClient) (networks : List Assoc)
    (network_id : String) : Except String (List String) :=
  match networks.find? (fun n => pyEqStr (dictGet n "_id") network_id) with
  | Option.none => .ok []
  | some cfg =>
      let subnetv := dictGet cfg "ip_subnet"
      if !(optTruthy subnetv) then .ok []
      else
        match subnetv with
        | some (PyVal.str s) =>
            match parseIPNetwork s with
            | Option.none => .error ("ValueError: " ++ s ++
                " does not appear to be an IPv4 or IPv6 network")
            | some _net =>
                let startv := dictGet cfg "dhcpd_start"
                let stopv := dictGet cfg "dhcpd_stop"
                if !(optTruthy startv) || !(optTruthy stopv) then .ok []
                else
                  match startv, stopv with
                  | some (PyVal.str st), some (PyVal.str sp) =>
                      match parseIPv4 st, parseIPv4 sp with
                      | some startIp, some stopIp =>
                          let reserved :=
                            reservedIps (list_dhcp_reservations clients networks)
                          let active := activeIps clients
                          .ok ((enumAvail startIp stopIp reserved active).take 50)
                      | _, _ => .error "ValueError: invalid DHCP range bound"
                  | _, _ => .error "ValueError: non-string DHCP range bound"
        | _ => .error "ValueError: non-string ip_subnet"

/-- Spec-side description: the inclusive range `[start, stop]` in
ascending order, minus reserved and active IPs, truncated to 50. -/
def availableIpsSpec (startIp stopIp : Nat) (reserved active : List String) :
    List String :=
  (((List.range' startIp (stopIp + 1 - startIp)).map formatIPv4).filter
    (fun s => !(reserved.contains s) && !(active.contains s))).take 50

theorem enumAvailAux_eq_range (reserved active : List String) :
    ∀ (fuel current stop : Nat), stop + 1 - current = fuel →
      enumAvailAux reserved active fuel current stop
        = ((List.range' current fuel).map formatIPv4).filter
            (fun s => !(reserved.contains s) && !(active.contains s)) := by
  intro fuel
  induction fuel with
  | zero => intro current stop _; rfl
  | succ n ih =>
      intro current stop h
      have hle : current ≤ stop := by omega
      have hn : stop + 1 - (current + 1) = n := by omega
      rw [enumAvailAux, if_pos hle, List.range'_succ, List.map_cons,
        List.filter_cons, ih (current + 1) stop hn]

theorem enumAvail_eq_spec (startIp stopIp : Nat) (reserved active : List String) :
    (enumAvail startIp stopIp reserved active).take 50
      = availableIpsSpec startIp stopIp reserved active := by
  unfold enumAvail availableIpsSpec
  rw [enumAvailAux_eq_range reserved active (stopIp + 1 - startIp) startIp stopIp rfl]

/-- C6.  On a network with a parsable subnet and a DHCP range
`[dhcpd_start, dhcpd_stop]`, `list_available_ips` returns the IPs of that
inclusive range, in ascending address order, that are neither reserved
(fixed-IP clients) nor active (live client IPs), truncated to at most 50
entries. -/
theorem c6_list_available_ips
    (clients : List UClient) (networks : List Assoc) (network_id : String)
    (cfg : Assoc) (s st sp : String) (net : Nat × Nat) (startIp stopIp : Nat)
    (hfind : networks.find? (fun n => pyEqStr (dictGet n "_id") network_id)
        = some cfg)
    (hsub : dictGet cfg "ip_subnet" = some (PyVal.str s)) (hs : s ≠ "")
    (hnet : parseIPNetwork s = some net)
    (hstart : dictGet cfg "dhcpd_start" = some (PyVal.str st)) (hst : st ≠ "")
    (hstop : dictGet cfg "dhcpd_stop" = some (PyVal.str sp)) (hsp : sp ≠ "")
    (hpst : parseIPv4 st = some startIp) (hpsp : parseIPv4 sp = some stopIp) :
    list_available_ips clients networks network_id
      = .ok (availableIpsSpec startIp stopIp
          (reservedIps (list_dhcp_reservations clients networks))
          (activeIps clients)) ∧
    (availableIpsSpec startIp stopIp
        (reservedIps (list_dhcp_reservations clients networks))
        (activeIps clients)).length ≤ 50 := by
  constructor
  · simp only [list_available_ips, hfind, hsub, hstart, hstop, optTruthy,
      pyTruthy, hs, hnet, hpst, hpsp]
    simp [hs, hst, hsp, enumAvail_eq_spec]
  · rw [availableIpsSpec, List.length_take]
    exact Nat.min_le_left _ _

/-- Witness for C6: the spec's own example — range `192.168.1.100`–`110`
with `.100` reserved and `.101` active yields exactly the nine addresses
`.102`–`.110`. -/
theorem c6_list_available_ips_witness :
    list_available_ips
      [⟨"c1", "aa:aa:aa:aa:aa:01", true, some "192.168.1.100", some "n1",
        Option.none, Option.none, Option.none, false, false⟩,
       ⟨"c2", "aa:aa:aa:aa:aa:02", false, Option.none, Option.none,
        some "192.168.1.101", Option.none, Option.none, false, false⟩]
      [[("_id", PyVal.str "n1"), ("name", PyVal.str "LAN"),
        ("ip_subnet", PyVal.str "192.168.1.0/24"),
        ("dhcpd_start", PyVal.str "192.168.1.100"),
        ("dhcpd_stop", PyVal.str "192.168.1.110")]]
      "n1"
    = .ok ["192.168.1.102", "192.168.1.103", "192.168.1.104", "192.168.1.105",
        "192.168.1.106", "192.168.1.107", "192.168.1.108", "192.168.1.109",
        "192.168.1.110"] := by
  have h := c6_list_available_ips
    [⟨"c1", "aa:aa:aa:aa:aa:01", true, some "192.168.1.100", some "n1",
      Option.none, Option.none, Option.none, false, false⟩,
     ⟨"c2", "aa:aa:aa:aa:aa:02", false, Option.none, Option.none,
      some "192.168.1.101", Option.none, Option.none, false, false⟩]
    [[("_id", PyVal.str "n1"), ("name", PyVal.str "LAN"),
      ("ip_subnet", PyVal.str "192.168.1.0/24"),
      ("dhcpd_start", PyVal.str "192.168.1.100"),
      ("dhcpd_stop", PyVal.str "192.168.1.110")]]
    "n1"
    [("_id", PyVal.str "n1"), ("name", PyVal.str "LAN"),
      ("ip_subnet", PyVal.str "192.168.1.0/24"),
      ("dhcpd_start", PyVal.str "192.168.1.100"),
      ("dhcpd_stop", PyVal.str "192.168.1.110")]
    "192.168.1.0/24" "192.168.1.100" "192.168.1.110" (3232235776, 24)
    3232235876 3232235886
    rfl rfl (by decide) rfl rfl (by decide) rfl (by decide) rfl rfl
  exact h.1.trans (by rfl)

/-! ## DeviceManager switch-port toggling
(`src/managers/device_manager.py`, `toggle_switch_port` /
`update_device_port_overrides`) -/

theorem dictGet_eq_none_of_not_mem (d : Assoc) (k : String)
    (h : k ∉ d.map Prod.fst) : dictGet d k = Option.none := by
  induction d with
  | nil => rfl
  | cons hd tl ih =>
      obtain ⟨k1, v1⟩ := hd
      have hne : k1 ≠ k := by
        intro hk; exact h (by simp [hk])
      simp only [dictGet, if_neg hne]
      exact ih (fun hk => h (by simp [hk]))

theorem dictGet_dictPop_self (d : Assoc) (k : String)
    (hnd : (d.map Prod.fst).Nodup) : dictGet (dictPop d k) k = Option.none := by
  induction d with
  | nil => rfl
  | cons hd tl ih =>
      obtain ⟨k1, v1⟩ := hd
      have hnd' : (k1 :: tl.map Prod.fst).Nodup := by
        simpa only [List.map_cons] using hnd
      obtain ⟨h1, h2⟩ := List.nodup_cons.mp hnd'
      by_cases hk : k1 = k
      · subst hk
        simp only [dictPop, if_pos rfl]
        exact dictGet_eq_none_of_not_mem tl k1 h1
      · simp only [dictPop, if_neg hk, dictGet, if_neg hk]
        exact ih h2

theorem dictGet_dictPop_ne (d : Assoc) (k k' : String) (h : k' ≠ k) :
    dictGet (dictPop d k) k' = dictGet d k' := by
  induction d with
  | nil => rfl
  | cons hd tl ih =>
      obtain ⟨k1, v1⟩ := hd
      by_cases hk : k1 = k
      · subst hk
        have hne : ¬ k1 = k' := fun hh => h hh.symm
        simp [dictPop, dictGet, hne]
      · simp only [dictPop, if_neg hk, dictGet]
        by_cases hk' : k1 = k'
        · simp [hk']
        · simp [hk', ih]

/-- The `for override in current_overrides` search of `toggle_switch_port`:
index of the first override whose `port_idx` equals the requested one. -/
def findOverrideIdx (overrides : List Assoc) (port_idx : Int) : Option Nat :=
  overrides.findIdx? (fun o => pyEqInt (dictGet o "port_idx") port_idx)

/-- `toggle_switch_port`'s transformation of the `port_overrides` list:
mutate the found override in place (drop `forward` to enable, set it to
`"disabled"` to disable), or append a fresh `{'port_idx': port_idx}`
override and mutate that. -/
def toggleSwitchPortOverrides (overrides : List Assoc) (port_idx : Int)
    (enabled : Bool) : List Assoc :=
  match findOverrideIdx overrides port_idx with
  | some i =>
      match overrides[i]? with
      | some ov =>
          overrides.set i
            (if enabled then dictPop ov "forward"
             else dictSet ov "forward" (PyVal.str "disabled"))
      | Option.none => overrides
  | Option.none =>
      let newOv : Assoc := [("port_idx", PyVal.int port_idx)]
      if enabled then overrides ++ [dictPop newOv "forward"]
      else overrides ++ [dictSet newOv "forward" (PyVal.str "disabled")]

/-- The body `update_device_port_overrides` PUTs to
`/rest/device/{device_id}`. -/
def togglePortPutPayload (overrides : List Assoc) (port_idx : Int)
    (enabled : Bool) : Assoc :=
  [("port_overrides",
    PyVal.list ((toggleSwitchPortOverrides overrides port_idx enabled).map
      PyVal.dict))]

/-- C7.  Disabling a port with no existing override appends a new override
`{'port_idx': port_idx, 'forward': 'disabled'}` to the PUT list; enabling
a port whose existing (first-matching) override is `forward: 'disabled'`
removes the `forward` key from that override — it never sets an "enabled"
value — and leaves the override's other keys unchanged. -/
theorem c7_toggle_switch_port
    (overrides : List Assoc) (port_idx : Int) :
    ((∀ ov ∈ overrides, pyEqInt (dictGet ov "port_idx") port_idx = false) →
      toggleSwitchPortOverrides overrides port_idx false
        = overrides
            ++ [[("port_idx", PyVal.int port_idx),
                 ("forward", PyVal.str "disabled")]] ∧
      togglePortPutPayload overrides port_idx false
        = [("port_overrides",
            PyVal.list ((overrides
              ++ [[("port_idx", PyVal.int port_idx),
                   ("forward", PyVal.str "disabled")]]).map PyVal.dict))]) ∧
    (∀ (i : Nat) (ov : Assoc),
      findOverrideIdx overrides port_idx = some i →
      overrides[i]? = some ov →
      dictGet ov "forward" = some (PyVal.str "disabled") →
      (ov.map Prod.fst).Nodup →
      toggleSwitchPortOverrides overrides port_idx true
        = overrides.set i (dictPop ov "forward") ∧
      dictGet (dictPop ov "forward") "forward" = Option.none ∧
      (∀ k, k ≠ "forward" →
        dictGet (dictPop ov "forward") k = dictGet ov k)) := by
  constructor
  · intro hnone
    have hidx : findOverrideIdx overrides port_idx = Option.none := by
      rw [findOverrideIdx, List.findIdx?_eq_none_iff]
      exact hnone
    constructor
    · simp [toggleSwitchPortOverrides, hidx, dictSet]
    · simp [togglePortPutPayload, toggleSwitchPortOverrides, hidx, dictSet]
  · intro i ov hidx hget hfwd hnd
    refine ⟨?_, dictGet_dictPop_self ov "forward" hnd, ?_⟩
    · simp [toggleSwitchPortOverrides, hidx, hget]
    · intro k hk
      exact dictGet_dictPop_ne ov "forward" k hk

/-- Witness for C7: one device with an empty override list gains the
disabled override; a device whose port-0 override is
`{'port_idx': 0, 'name': 'uplink', 'forward': 'disabled'}` has exactly the
`forward` key removed on enable. -/
theorem c7_toggle_switch_port_witness :
    toggleSwitchPortOverrides [] 0 false
      = [[("port_idx", PyVal.int 0), ("forward", PyVal.str "disabled")]] ∧
    toggleSwitchPortOverrides
        [[("port_idx", PyVal.int 0), ("name", PyVal.str "uplink"),
          ("forward", PyVal.str "disabled")]] 0 true
      = [[("port_idx", PyVal.int 0), ("name", PyVal.str "uplink")]] ∧
    dictGet [("port_idx", PyVal.int 0), ("name", PyVal.str "uplink")] "name"
      = some (PyVal.str "uplink") := by
  have h1 := (c7_toggle_switch_port [] 0).1 (by simp)
  have h2 := (c7_toggle_switch_port
    [[("port_idx", PyVal.int 0), ("name", PyVal.str "uplink"),
      ("forward", PyVal.str "disabled")]] 0).2 0
    [("port_idx", PyVal.int 0), ("name", PyVal.str "uplink"),
      ("forward", PyVal.str "disabled")]
    rfl rfl rfl (by simp)
  refine ⟨h1.1, h2.1.trans (by rfl), ?_⟩
  exact ((h2.2.2 "name" (by simp)).trans (by rfl))

/-! ## Validators (`src/validators.py`)

`validate_mac_address` lower-cases the input, strips the separators
`':'`, `'-'`, `'.'`, requires exactly 12 remaining characters and then
asks Python's `int(mac_clean, 16)` whether they parse in base 16.  The
`int(s, 16)` acceptance grammar (CPython) is: optional surrounding
whitespace, an optional sign, an optional `0x`/`0X` prefix (with one
optional underscore directly after it), then hex digits with single
underscores allowed between digits. -/

/-- Keep a character of the MAC string: it is none of the three stripped
separators. -/
def keepChar (c : Char) : Bool := ¬(c = ':' ∨ c = '-' ∨ c = '.')

/-- `mac.lower().replace(':', '').replace('-', '').replace('.', '')`. -/
def cleanMacList (l : List Char) : List Char :=
  (l.map asciiLower).filter keepChar

/-- Python `str` whitespace stripped by `int()` (ASCII fragment). -/
def isPySpace (c : Char) : Bool :=
  c = ' ' ∨ c = '\t' ∨ c = '\n' ∨ c = '\r' ∨ c = '\x0b' ∨ c = '\x0c'

/-- ASCII hexadecimal digit (either case). -/
def isHexChar (c : Char) : Bool :=
  (48 ≤ c.toNat ∧ c.toNat ≤ 57) ∨ (97 ≤ c.toNat ∧ c.toNat ≤ 102)
    ∨ (65 ≤ c.toNat ∧ c.toNat ≤ 70)

/-- Lower-case hexadecimal digit (digit or `a`–`f`). -/
def isLowerHex (c : Char) : Bool :=
  (48 ≤ c.toNat ∧ c.toNat ≤ 57) ∨ (97 ≤ c.toNat ∧ c.toNat ≤ 102)

/-- Strip leading and trailing whitespace. -/
def stripWs (l : List Char) : List Char :=
  ((l.dropWhile isPySpace).reverse.dropWhile isPySpace).reverse

/-- Digit-string tail: `('_'? hexdigit)*` — single underscores only
between digits. -/
def hexDigitsTail : List Char → Bool
  | [] => true
  | c :: rest =>
      if c = '_' then
        match rest with
        | [] => false
        | c2 :: rest2 => isHexChar c2 && hexDigitsTail rest2
      else isHexChar c && hexDigitsTail rest

/-- Nonempty digit string: `hexdigit ('_'? hexdigit)*`. -/
def hexDigitsRun : List Char → Bool
  | [] => false
  | c :: rest => isHexChar c && hexDigitsTail rest

/-- Whether CPython's `int(s, 16)` accepts the string. -/
def pyIntBase16Accepts (l : List Char) : Bool :=
  let l1 := stripWs l
  let l2 :=
    match l1 with
    | [] => ([] : List Char)
    | c :: rest => if c = '+' ∨ c = '-' then rest else l1
  match l2 with
  | [] => false
  | c :: rest =>
      if c = '0' then
        match rest with
        | [] => hexDigitsRun l2
        | x :: r2 =>
            if x = 'x' ∨ x = 'X' then
              match r2 with
              | [] => hexDigitsRun r2
              | c3 :: r3 => if c3 = '_' then hexDigitsRun r3 else hexDigitsRun r2
            else hexDigitsRun l2
      else hexDigitsRun l2

/-- `validate_mac_address` (`src/validators.py`). -/
def validate_mac_address (mac : String) : Bool :=
  if mac.data = [] then false
  else
    let macClean := cleanMacList mac.data
    if macClean.length ≠ 12 then false
    else pyIntBase16Accepts macClean

/-- `validate_ip_address` (IPv4 fragment of `ipaddress.ip_address`). -/
def validate_ip_address (ip : String) : Bool :=
  if ip.data = [] then false
  else (parseIPv4 ip).isSome

/-- Spec-side formatter: the 12 hex digits in pair groups joined by a
separator (`aa:bb:cc:dd:ee:ff` / `aa-bb-cc-dd-ee-ff` shapes). -/
def withSep2 (sep : Char) : List Char → List Char
  | a :: b :: c :: rest => a :: b :: sep :: withSep2 sep (c :: rest)
  | l => l

/-- Spec-side formatter: groups of four joined by a separator
(`aabb.ccdd.eeff` shape). -/
def withSep4 (sep : Char) : List Char → List Char
  | a :: b :: c :: d :: e :: rest => a :: b :: c :: d :: sep :: withSep4 sep (e :: rest)
  | l => l

theorem toNat_ofNat_of_lt (n : Nat) (h : n < 55296) : (Char.ofNat n).toNat = n := by
  rw [Char.ofNat, dif_pos (Or.inl h)]
  rfl

theorem asciiLower_lowerHex (c : Char) (h : isHexChar c = true) :
    isLowerHex (asciiLower c) = true := by
  have hp : (48 ≤ c.toNat ∧ c.toNat ≤ 57) ∨ (97 ≤ c.toNat ∧ c.toNat ≤ 102)
      ∨ (65 ≤ c.toNat ∧ c.toNat ≤ 70) := of_decide_eq_true h
  unfold asciiLower isLowerHex
  by_cases hc : 65 ≤ c.toNat ∧ c.toNat ≤ 90
  · rw [if_pos hc]
    apply decide_eq_true
    rw [toNat_ofNat_of_lt _ (by omega)]
    omega
  · rw [if_neg hc]
    apply decide_eq_true
    omega

theorem keepChar_of_lowerHex (c : Char) (h : isLowerHex c = true) :
    keepChar c = true := by
  unfold keepChar
  apply decide_eq_true
  intro hor
  rcases hor with h1 | h1 | h1 <;> subst h1 <;> exact absurd h (by decide)

theorem isPySpace_of_lowerHex (c : Char) (h : isLowerHex c = true) :
    isPySpace c = false := by
  unfold isPySpace
  apply decide_eq_false
  intro hor
  rcases hor with h1 | h1 | h1 | h1 | h1 | h1 <;> subst h1 <;>
    exact absurd h (by decide)

theorem not_sign_of_lowerHex (c : Char) (h : isLowerHex c = true) :
    ¬(c = '+' ∨ c = '-') := by
  intro hor
  rcases hor with h1 | h1 <;> subst h1 <;> exact absurd h (by decide)

theorem not_x_of_lowerHex (c : Char) (h : isLowerHex c = true) :
    ¬(c = 'x' ∨ c = 'X') := by
  intro hor
  rcases hor with h1 | h1 <;> subst h1 <;> exact absurd h (by decide)

theorem ne_underscore_of_hex (c : Char) (h : isHexChar c = true) : ¬ c = '_' := by
  intro h1; subst h1; exact absurd h (by decide)

theorem hex_of_lowerHex (c : Char) (h : isLowerHex c = true) :
    isHexChar c = true := by
  have hp := of_decide_eq_true h
  unfold isHexChar
  apply decide_eq_true
  omega

theorem hexDigitsTail_all (l : List Char) (h : ∀ c ∈ l, isHexChar c = true) :
    hexDigitsTail l = true := by
  induction l with
  | nil => rfl
  | cons c rest ih =>
      have hc : isHexChar c = true := h c (by simp)
      rw [hexDigitsTail.eq_def]
      change (if c = '_' then _ else _) = true
      rw [if_neg (ne_underscore_of_hex c hc), hc,
        ih (fun x hx => h x (by simp [hx]))]
      rfl

theorem hexDigitsRun_all (l : List Char) (hne : l ≠ [])
    (h : ∀ c ∈ l, isHexChar c = true) : hexDigitsRun l = true := by
  cases l with
  | nil => exact absurd rfl hne
  | cons c rest =>
      rw [hexDigitsRun, h c (by simp),
        hexDigitsTail_all rest (fun x hx => h x (by simp [hx]))]
      rfl

theorem stripWs_eq_self (l : List Char) (h : ∀ c ∈ l, isPySpace c = false) :
    stripWs l = l := by
  have hdw : ∀ m : List Char, (∀ c ∈ m, isPySpace c = false) →
      m.dropWhile isPySpace = m := by
    intro m hm
    cases m with
    | nil => rfl
    | cons c rest =>
        rw [List.dropWhile_cons, if_neg (by rw [hm c (by simp)]; simp)]
  rw [stripWs, hdw l h, hdw l.reverse (fun c hc => h c (List.mem_reverse.mp hc)),
    List.reverse_reverse]

theorem pyIntBase16Accepts_lowerHex (l : List Char) (hne : l ≠ [])
    (h : ∀ c ∈ l, isLowerHex c = true) : pyIntBase16Accepts l = true := by
  cases l with
  | nil => exact absurd rfl hne
  | cons c rest =>
      have hc : isLowerHex c = true := h c (by simp)
      have hsw : stripWs (c :: rest) = c :: rest :=
        stripWs_eq_self _ (fun x hx => isPySpace_of_lowerHex x (h x hx))
      have hsign : ¬(c = '+' ∨ c = '-') := not_sign_of_lowerHex c hc
      have hrun : hexDigitsRun (c :: rest) = true :=
        hexDigitsRun_all _ (by simp) (fun x hx => hex_of_lowerHex x (h x hx))
      simp only [pyIntBase16Accepts, hsw, if_neg hsign]
      by_cases hc0 : c = '0'
      · subst hc0
        cases rest with
        | nil => decide
        | cons x r2 =>
            have hx : isLowerHex x = true := h x (by simp)
            rw [if_pos rfl]
            change (if x = 'x' ∨ x = 'X' then _ else _) = true
            rw [if_neg (not_x_of_lowerHex x hx)]
            exact hrun
      · rw [if_neg hc0]
        exact hrun

theorem cleanMacList_of_hex (l : List Char) (h : ∀ c ∈ l, isHexChar c = true) :
    cleanMacList l = l.map asciiLower := by
  unfold cleanMacList
  apply List.filter_eq_self.mpr
  intro a ha
  obtain ⟨b, hb, rfl⟩ := List.mem_map.mp ha
  exact keepChar_of_lowerHex _ (asciiLower_lowerHex b (h b hb))

theorem clean_cons (c : Char) (t : List Char) :
    cleanMacList (c :: t)
      = if keepChar (asciiLower c) then asciiLower c :: cleanMacList t
        else cleanMacList t := by
  simp [cleanMacList, List.filter_cons]

theorem clean_withSep2 (sep : Char) (hks : keepChar (asciiLower sep) = false) :
    ∀ (n : Nat) (l : List Char), l.length ≤ n →
      cleanMacList (withSep2 sep l) = cleanMacList l := by
  intro n
  induction n with
  | zero =>
      intro l hl
      have : l = [] := List.length_eq_zero.mp (Nat.le_zero.mp hl)
      subst this; rfl
  | succ n ih =>
      intro l hl
      cases l with
      | nil => rfl
      | cons a t =>
          cases t with
          | nil => rfl
          | cons b t2 =>
              cases t2 with
              | nil => rfl
              | cons c rest =>
                  have hlen : (c :: rest).length ≤ n := by
                    simp only [List.length_cons] at hl ⊢; omega
                  have hred : withSep2 sep (a :: b :: c :: rest)
                      = a :: b :: sep :: withSep2 sep (c :: rest) := rfl
                  rw [hred, clean_cons a, clean_cons b, clean_cons sep, hks,
                    ih (c :: rest) hlen, clean_cons a, clean_cons b]
                  simp

theorem clean_withSep4 (sep : Char) (hks : keepChar (asciiLower sep) = false) :
    ∀ (n : Nat) (l : List Char), l.length ≤ n →
      cleanMacList (withSep4 sep l) = cleanMacList l := by
  intro n
  induction n with
  | zero =>
      intro l hl
      have : l = [] := List.length_eq_zero.mp (Nat.le_zero.mp hl)
      subst this; rfl
  | succ n ih =>
      intro l hl
      cases l with
      | nil => rfl
      | cons a t =>
          cases t with
          | nil => rfl
          | cons b t2 =>
              cases t2 with
              | nil => rfl
              | cons c t3 =>
                  cases t3 with
                  | nil => rfl
                  | cons d t4 =>
                      cases t4 with
                      | nil => rfl
                      | cons e rest =>
                          have hlen : (e :: rest).length ≤ n := by
                            simp only [List.length_cons] at hl ⊢; omega
                          have hred : withSep4 sep (a :: b :: c :: d :: e :: rest)
                              = a :: b :: c :: d :: sep
                                  :: withSep4 sep (e :: rest) := rfl
                          rw [hred, clean_cons a, clean_cons b, clean_cons c,
                            clean_cons d, clean_cons sep, hks,
                            ih (e :: rest) hlen, clean_cons a, clean_cons b,
                            clean_cons c, clean_cons d]
                          simp

theorem withSep2_ne_nil (sep : Char) (l : List Char) (h : l ≠ []) :
    withSep2 sep l ≠ [] := by
  unfold withSep2
  split <;> simp_all

theorem withSep4_ne_nil (sep : Char) (l : List Char) (h : l ≠ []) :
    withSep4 sep l ≠ [] := by
  unfold withSep4
  split <;> simp_all

/-- C10 (counterexample).  The input `"0x2345678901"` is cleaned to itself
(12 characters that are not all hexadecimal digits — it carries an `0x`
prefix), yet `validate_mac_address` accepts it, because Python's
`int(s, 16)` accepts prefixed strings; so "any string that does not reduce
to exactly 12 hex digits returns false" fails. -/
theorem c10_validate_mac_counterexample :
    validate_mac_address "0x2345678901" = true ∧
    cleanMacList ("0x2345678901".data) = "0x2345678901".data ∧
    (("0x2345678901".data).all isHexChar) = false := by
  refine ⟨by decide, by decide, by decide⟩

/-- C10 (amended).  `validate_mac_address` accepts every syntactically
valid MAC in the four separator styles (colon pairs, hyphen pairs, dot
quads, bare 12 digits); and it returns true exactly on inputs whose
cleaned (lower-cased, separator-stripped) form has 12 characters accepted
by Python's base-16 `int` parser — which admits, beyond plain hex digits,
surrounding whitespace, a sign, an `0x`/`0X` prefix, and underscores
between digits. -/
theorem c10_validate_mac_amended :
    (∀ h : List Char, h.length = 12 → (∀ c ∈ h, isHexChar c = true) →
      validate_mac_address ⟨h⟩ = true ∧
      validate_mac_address ⟨withSep2 ':' h⟩ = true ∧
      validate_mac_address ⟨withSep2 '-' h⟩ = true ∧
      validate_mac_address ⟨withSep4 '.' h⟩ = true) ∧
    (∀ mac : String, validate_mac_address mac = true ↔
      ((cleanMacList mac.data).length = 12 ∧
        pyIntBase16Accepts (cleanMacList mac.data) = true)) := by
  constructor
  · intro h hlen hhex
    have hne : h ≠ [] := by
      intro he; rw [he] at hlen; exact absurd hlen (by decide)
    have hclean : cleanMacList h = h.map asciiLower := cleanMacList_of_hex h hhex
    have hlow : ∀ c ∈ h.map asciiLower, isLowerHex c = true := by
      intro c hc
      obtain ⟨b, hb, rfl⟩ := List.mem_map.mp hc
      exact asciiLower_lowerHex b (hhex b hb)
    have hmapne : h.map asciiLower ≠ [] := by
      intro he; exact hne (List.map_eq_nil_iff.mp he)
    have hcleanlen : (cleanMacList h).length = 12 := by
      rw [hclean, List.length_map]; exact hlen
    have haccept : pyIntBase16Accepts (cleanMacList h) = true := by
      rw [hclean]; exact pyIntBase16Accepts_lowerHex _ hmapne hlow
    have hbare : validate_mac_address ⟨h⟩ = true := by
      unfold validate_mac_address
      rw [if_neg (by exact hne), if_neg (by rw [hcleanlen]; simp)]
      exact haccept
    have hsepstyle : ∀ sep : Char, keepChar (asciiLower sep) = false →
        validate_mac_address ⟨withSep2 sep h⟩ = true := by
      intro sep hks
      have hcl : cleanMacList (withSep2 sep h) = cleanMacList h :=
        clean_withSep2 sep hks h.length h (Nat.le_refl _)
      unfold validate_mac_address
      rw [if_neg (by exact withSep2_ne_nil sep h hne)]
      rw [show (String.mk (withSep2 sep h)).data = withSep2 sep h from rfl, hcl,
        if_neg (by rw [hcleanlen]; simp)]
      exact haccept
    have hdotstyle : validate_mac_address ⟨withSep4 '.' h⟩ = true := by
      have hcl : cleanMacList (withSep4 '.' h) = cleanMacList h :=
        clean_withSep4 '.' (by decide) h.length h (Nat.le_refl _)
      unfold validate_mac_address
      rw [if_neg (by exact withSep4_ne_nil '.' h hne)]
      rw [show (String.mk (withSep4 '.' h)).data = withSep4 '.' h from rfl, hcl,
        if_neg (by rw [hcleanlen]; simp)]
      exact haccept
    exact ⟨hbare, hsepstyle ':' (by decide), hsepstyle '-' (by decide), hdotstyle⟩
  · intro mac
    unfold validate_mac_address
    by_cases hd : mac.data = []
    · rw [if_pos hd, hd]
      simp [cleanMacList]
    · rw [if_neg hd]
      by_cases hlen : (cleanMacList mac.data).length = 12
      · rw [if_neg (by rw [hlen]; simp)]
        simp [hlen]
      · rw [if_pos hlen]
        simp [hlen]

/-- Witness for C10's amended claim: all four styles of
`aa bb cc dd ee ff` are accepted, and a 10-hex-digit string is rejected
through the characterization. -/
theorem c10_validate_mac_amended_witness :
    validate_mac_address "aabbccddeeff" = true ∧
    validate_mac_address "aa:bb:cc:dd:ee:ff" = true ∧
    validate_mac_address "aa-bb-cc-dd-ee-ff" = true ∧
    validate_mac_address "aabb.ccdd.eeff" = true ∧
    validate_mac_address "aa:bb:cc:dd:ee" = false := by
  have h := c10_validate_mac_amended
  have hp := h.1 ['a', 'a', 'b', 'b', 'c', 'c', 'd', 'd', 'e', 'e', 'f', 'f']
    (by decide) (by decide)
  have e2 : (⟨withSep2 ':' ['a', 'a', 'b', 'b', 'c', 'c', 'd', 'd', 'e', 'e', 'f', 'f']⟩ : String)
      = "aa:bb:cc:dd:ee:ff" := rfl
  have e3 : (⟨withSep2 '-' ['a', 'a', 'b', 'b', 'c', 'c', 'd', 'd', 'e', 'e', 'f', 'f']⟩ : String)
      = "aa-bb-cc-dd-ee-ff" := rfl
  have e4 : (⟨withSep4 '.' ['a', 'a', 'b', 'b', 'c', 'c', 'd', 'd', 'e', 'e', 'f', 'f']⟩ : String)
      = "aabb.ccdd.eeff" := rfl
  refine ⟨hp.1, e2 ▸ hp.2.1, e3 ▸ hp.2.2.1, e4 ▸ hp.2.2.2, ?_⟩
  have hiff := h.2 "aa:bb:cc:dd:ee"
  cases hval : validate_mac_address "aa:bb:cc:dd:ee" with
  | false => rfl
  | true =>
      have hc := hiff.mp hval
      exact absurd hc.1 (by decide)

/-! ## Tool handlers (`src/tools/*.py`)

Each handler is a pure function of its arguments plus the outcome of the
manager call(s) it awaits (`Except String α`: `.error` models a raised
exception).  The result is `(response, managerCalled)`: the response —
`.error` for an exception that escapes the handler — and whether the
manager was invoked at all.  `parse_permission(config.permissions, r, v)`
(in `src/utils/permissions.py`, a module not part of the analysed
sources) is an opaque boolean, passed as `perm` where the handler
consults it; the DHCP and WAN handlers never do. -/

def natDigitsAux : Nat → Nat → List Char
  | 0, _ => []
  | fuel + 1, n =>
      if n < 10 then [digitChar n]
      else natDigitsAux fuel (n / 10) ++ [digitChar (n % 10)]

/-- Decimal rendering of a natural number. -/
def natToString (n : Nat) : String := ⟨natDigitsAux (n + 1) n⟩

/-- Python `str(i)` for an integer. -/
def intToString : Int → String
  | .ofNat m => natToString m
  | .negSucc m => ⟨'-' :: (natToString (m + 1)).data⟩

/-- Rendering of a scalar value inside an f-string (the interpolated
values in the handlers are strings, booleans or integers). -/
def pyStrScalar : PyVal → String
  | .str s => s
  | .bool b => if b then "True" else "False"
  | .int n => intToString n
  | .none => "None"
  | .list _ => "[...]"
  | .dict _ => "\x7b...\x7d"

/-- `d.get(k)` as the Python value it yields (`None` when absent). -/
def dictGetOrNone (d : Assoc) (k : String) : PyVal :=
  (dictGet d k).getD PyVal.none

/-- The `{"success": False, "error": e}` shape every `except` clause
produces. -/
def errDict (e : String) : PyVal :=
  PyVal.dict [("success", PyVal.bool false), ("error", PyVal.str e)]

/-- `unifi_toggle_switch_port` (`src/tools/switch_ports.py`): permission
gate, confirmation gate, then the manager call inside `try`. -/
def tool_toggle_switch_port (perm : Bool) (device_mac : String)
    (port_idx : Int) (enabled confirm : Bool) (mgr : Except String Bool) :
    Except String PyVal × Bool :=
  if !perm then (.ok (errDict "Permission denied"), false)
  else if !confirm then
    (.ok (PyVal.dict
      [("success", PyVal.bool false),
       ("error", PyVal.str "Confirmation required. Set 'confirm' to true."),
       ("warning", PyVal.str ("This will "
          ++ (if enabled then "enable" else "disable") ++ " port "
          ++ intToString (port_idx + 1) ++ " on switch " ++ device_mac))]),
     false)
  else
    match mgr with
    | .ok true =>
        (.ok (PyVal.dict
          [("success", PyVal.bool true),
           ("device_mac", PyVal.str device_mac),
           ("port_idx", PyVal.int port_idx),
           ("port_number", PyVal.int (port_idx + 1)),
           ("enabled", PyVal.bool enabled),
           ("message", PyVal.str ("Port " ++ intToString (port_idx + 1)
              ++ " has been "
              ++ (if enabled then "enabled" else "disabled")))]), true)
    | .ok false => (.ok (errDict "Failed to toggle port state"), true)
    | .error e => (.ok (errDict e), true)

/-- `unifi_toggle_firewall_policy` (`src/tools/firewall.py`): permission
gate, confirmation gate, then fetch → find → toggle → re-fetch, all
inside one `try`. -/
def tool_toggle_firewall_policy (perm confirm : Bool) (policy_id : String)
    (mgrPolicies : Except String (List Assoc))
    (mgrToggle : Except String Bool)
    (mgrPoliciesAfter : Except String (List Assoc)) :
    Except String PyVal × Bool :=
  if !perm then
    (.ok (errDict "Permission denied to toggle firewall policy."), false)
  else if !confirm then
    (.ok (errDict "Confirmation required to toggle policy. Set 'confirm' to true."),
     false)
  else
    match mgrPolicies with
    | .error e => (.ok (errDict e), true)
    | .ok policies =>
        match policies.find? (fun p => pyEqStr (dictGet p "_id") policy_id) with
        | Option.none =>
            (.ok (errDict ("Firewall policy with ID '" ++ policy_id
              ++ "' not found.")), true)
        | some policy =>
            let current := pyTruthy (dictGetD policy "enabled" (PyVal.bool false))
            let policy_name := pyStrScalar (dictGetD policy "name" (PyVal.str policy_id))
            let new_state := !current
            match mgrToggle with
            | .error e => (.ok (errDict e), true)
            | .ok true =>
                match mgrPoliciesAfter with
                | .error e => (.ok (errDict e), true)
                | .ok after =>
                    let final_state :=
                      match after.find? (fun p => pyEqStr (dictGet p "_id") policy_id) with
                      | some p => pyTruthy (dictGetD p "enabled" (PyVal.bool false))
                      | Option.none => new_state
                    (.ok (PyVal.dict
                      [("success", PyVal.bool true),
                       ("policy_id", PyVal.str policy_id),
                       ("enabled", PyVal.bool final_state),
                       ("message", PyVal.str ("Firewall policy '" ++ policy_name
                          ++ "' (" ++ policy_id ++ ") toggled successfully to "
                          ++ (if final_state then "enabled" else "disabled")
                          ++ "."))]), true)
            | .ok false =>
                match mgrPoliciesAfter with
                | .error e => (.ok (errDict e), true)
                | .ok after =>
                    let state_after : PyVal :=
                      match after.find? (fun p => pyEqStr (dictGet p "_id") policy_id) with
                      | some p => PyVal.bool (pyTruthy (dictGetD p "enabled" (PyVal.bool false)))
                      | Option.none => PyVal.str "unknown"
                    (.ok (PyVal.dict
                      [("success", PyVal.bool false),
                       ("policy_id", PyVal.str policy_id),
                       ("state_after_attempt", state_after),
                       ("error", PyVal.str ("Failed to toggle firewall policy '"
                          ++ policy_name ++ "' (" ++ policy_id
                          ++ "). Check server logs."))]), true)

/-- `unifi_set_client_fixed_ip` (`src/tools/dhcp.py`): input validation,
then the manager call inside `try` — no permission gate, no `confirm`
argument. -/
def tool_unifi_set_client_fixed_ip (mac_address fixed_ip : String)
    (network_id : Option String) (mgr : Except String Bool) :
    Except String PyVal × Bool :=
  if !(validate_mac_address mac_address) then
    (.ok (errDict "Invalid MAC address format"), false)
  else if !(validate_ip_address fixed_ip) then
    (.ok (errDict "Invalid IP address format"), false)
  else
    match mgr with
    | .ok true =>
        (.ok (PyVal.dict
          [("success", PyVal.bool true),
           ("message", PyVal.str ("Fixed IP " ++ fixed_ip ++ " assigned to "
              ++ mac_address)),
           ("mac_address", PyVal.str mac_address),
           ("fixed_ip", PyVal.str fixed_ip),
           ("network_id", optStrVal network_id)]), true)
    | .ok false =>
        (.ok (errDict
          "Failed to set fixed IP. Check if client exists and network is valid."),
         true)
    | .error e => (.ok (errDict e), true)

/-- `unifi_remove_client_fixed_ip` (`src/tools/dhcp.py`): MAC validation,
then the manager call — again no permission gate and no `confirm`. -/
def tool_unifi_remove_client_fixed_ip (mac_address : String)
    (mgr : Except String Bool) : Except String PyVal × Bool :=
  if !(validate_mac_address mac_address) then
    (.ok (errDict "Invalid MAC address format"), false)
  else
    match mgr with
    | .ok true =>
        (.ok (PyVal.dict
          [("success", PyVal.bool true),
           ("message", PyVal.str ("Fixed IP removed for " ++ mac_address
              ++ ", DHCP enabled")),
           ("mac_address", PyVal.str mac_address)]), true)
    | .ok false =>
        (.ok (errDict "Failed to remove fixed IP. Check if client exists."), true)
    | .error e => (.ok (errDict e), true)

/-- `unifi_create_dhcp_reservation` (`src/tools/dhcp.py`): input
validation, then the manager call — no permission gate, no `confirm`. -/
def tool_unifi_create_dhcp_reservation (mac_address fixed_ip : String)
    (name network_id : Option String) (mgr : Except String Bool) :
    Except String PyVal × Bool :=
  if !(validate_mac_address mac_address) then
    (.ok (errDict "Invalid MAC address format"), false)
  else if !(validate_ip_address fixed_ip) then
    (.ok (errDict "Invalid IP address format"), false)
  else
    match mgr with
    | .ok true =>
        let base : Assoc :=
          [("success", PyVal.bool true),
           ("message", PyVal.str ("DHCP reservation created for " ++ mac_address)),
           ("mac_address", PyVal.str mac_address),
           ("fixed_ip", PyVal.str fixed_ip)]
        let withName :=
          match name with
          | some nm => if nm ≠ "" then base ++ [("name", PyVal.str nm)] else base
          | Option.none => base
        let withNet :=
          match network_id with
          | some nid =>
              if nid ≠ "" then withName ++ [("network_id", PyVal.str nid)]
              else withName
          | Option.none => withName
        (.ok (PyVal.dict withNet), true)
    | .ok false =>
        (.ok (errDict
          "Failed to create DHCP reservation. Check network and IP validity."), true)
    | .error e => (.ok (errDict e), true)

/-- `unifi_list_dhcp_reservations` (`src/tools/dhcp.py`): manager call
inside `try` — no permission gate at all. -/
def tool_unifi_list_dhcp_reservations (mgr : Except String (List Assoc)) :
    Except String PyVal × Bool :=
  match mgr with
  | .ok reservations =>
      (.ok (PyVal.dict
        [("success", PyVal.bool true),
         ("count", PyVal.int reservations.length),
         ("reservations", PyVal.list (reservations.map PyVal.dict))]), true)
  | .error e => (.ok (errDict e), true)

/-- `unifi_get_wan_status` (`src/tools/wan.py`): returns the manager's
configuration dict unchanged; the `except` converts a raise into an error
dict — no permission gate at all. -/
def tool_unifi_get_wan_status (mgr : Except String PyVal) :
    Except String PyVal × Bool :=
  match mgr with
  | .ok cfg => (.ok cfg, true)
  | .error e => (.ok (errDict e), true)

/-- `unifi_list_firewall_policies` (`src/tools/firewall.py`): permission
gate, then fetch-and-format inside `try`. -/
def tool_list_firewall_policies (perm : Bool) (site : String)
    (mgr : Except String (List Assoc)) : Except String PyVal × Bool :=
  if !perm then
    (.ok (errDict "Permission denied to list firewall policies."), false)
  else
    match mgr with
    | .ok policies =>
        let formatted := policies.map (fun p => PyVal.dict
          [("id", dictGetOrNone p "_id"),
           ("name", dictGetOrNone p "name"),
           ("enabled", dictGetOrNone p "enabled"),
           ("action", dictGetOrNone p "action"),
           ("rule_index", dictGetD p "index" (dictGetOrNone p "rule_index")),
           ("ruleset", dictGetOrNone p "ruleset"),
           ("description", dictGetD p "description"
              (dictGetD p "desc" (PyVal.str "")))])
        (.ok (PyVal.dict
          [("success", PyVal.bool true), ("site", PyVal.str site),
           ("count", PyVal.int formatted.length),
           ("policies", PyVal.list formatted)]), true)
    | .error e => (.ok (errDict e), true)

/-- `unifi_list_firewall_zones` (`src/tools/firewall.py`): a bare manager
call and dict construction with **no** `try`/`except` — a raising manager
call escapes the handler. -/
def tool_list_firewall_zones (mgr : Except String (List PyVal)) :
    Except String PyVal × Bool :=
  match mgr with
  | .ok zones =>
      (.ok (PyVal.dict
        [("success", PyVal.bool true),
         ("count", PyVal.int zones.length),
         ("zones", PyVal.list zones)]), true)
  | .error e => (.error e, true)

/-- `unifi_list_ip_groups` (`src/tools/firewall.py`): same shape as
`unifi_list_firewall_zones`, no `try`/`except`. -/
def tool_list_ip_groups (mgr : Except String (List PyVal)) :
    Except String PyVal × Bool :=
  match mgr with
  | .ok groups =>
      (.ok (PyVal.dict
        [("success", PyVal.bool true),
         ("count", PyVal.int groups.length),
         ("ip_groups", PyVal.list groups)]), true)
  | .error e => (.error e, true)

/-- C2 (counterexample).  `unifi_set_client_fixed_ip` has no `confirm`
parameter: with valid inputs it invokes the mutation and returns a
success payload — there is no refusal path for a missing confirmation;
likewise `unifi_remove_client_fixed_ip` and
`unifi_create_dhcp_reservation`. -/
theorem c2_confirm_gate_counterexample :
    (tool_unifi_set_client_fixed_ip "aa:bb:cc:dd:ee:ff" "192.168.1.50"
        Option.none (.ok true)).2 = true ∧
    (tool_unifi_set_client_fixed_ip "aa:bb:cc:dd:ee:ff" "192.168.1.50"
        Option.none (.ok true)).1
      = .ok (PyVal.dict
          [("success", PyVal.bool true),
           ("message", PyVal.str "Fixed IP 192.168.1.50 assigned to aa:bb:cc:dd:ee:ff"),
           ("mac_address", PyVal.str "aa:bb:cc:dd:ee:ff"),
           ("fixed_ip", PyVal.str "192.168.1.50"),
           ("network_id", PyVal.none)]) ∧
    (tool_unifi_remove_client_fixed_ip "aa:bb:cc:dd:ee:ff" (.ok true)).2 = true ∧
    (tool_unifi_create_dhcp_reservation "aa:bb:cc:dd:ee:ff" "192.168.1.50"
        Option.none Option.none (.ok true)).2 = true :=
  ⟨rfl, rfl, rfl, rfl⟩

/-- C2 (amended).  The switch-port and firewall mutating tools take an
explicit `confirm` and, when it is not true, refuse with `success: false`
and a message describing the pending operation, without calling the
manager; the DHCP mutating tools take no `confirm` argument at all and,
once their inputs validate, always invoke the mutation. -/
theorem c2_confirm_gate_amended :
    (∀ (device_mac : String) (port_idx : Int) (enabled : Bool)
        (mgr : Except String Bool),
      tool_toggle_switch_port true device_mac port_idx enabled false mgr
        = (.ok (PyVal.dict
            [("success", PyVal.bool false),
             ("error", PyVal.str "Confirmation required. Set 'confirm' to true."),
             ("warning", PyVal.str ("This will "
                ++ (if enabled then "enable" else "disable") ++ " port "
                ++ intToString (port_idx + 1) ++ " on switch " ++ device_mac))]),
           false)) ∧
    (∀ (policy_id : String) (m1 : Except String (List Assoc))
        (m2 : Except String Bool) (m3 : Except String (List Assoc)),
      tool_toggle_firewall_policy true false policy_id m1 m2 m3
        = (.ok (errDict
            "Confirmation required to toggle policy. Set 'confirm' to true."),
           false)) ∧
    (∀ (mac ip : String) (netid : Option String) (mgr : Except String Bool),
      validate_mac_address mac = true → validate_ip_address ip = true →
      (tool_unifi_set_client_fixed_ip mac ip netid mgr).2 = true) ∧
    (∀ (mac : String) (mgr : Except String Bool),
      validate_mac_address mac = true →
      (tool_unifi_remove_client_fixed_ip mac mgr).2 = true) ∧
    (∀ (mac ip : String) (name netid : Option String)
        (mgr : Except String Bool),
      validate_mac_address mac = true → validate_ip_address ip = true →
      (tool_unifi_create_dhcp_reservation mac ip name netid mgr).2 = true) := by
  refine ⟨?_, ?_, ?_, ?_, ?_⟩
  · intro device_mac port_idx enabled mgr
    rfl
  · intro policy_id m1 m2 m3
    rfl
  · intro mac ip netid mgr hmac hip
    unfold tool_unifi_set_client_fixed_ip
    rw [hmac, hip]
    cases mgr with
    | ok b => cases b <;> rfl
    | error e => rfl
  · intro mac mgr hmac
    unfold tool_unifi_remove_client_fixed_ip
    rw [hmac]
    cases mgr with
    | ok b => cases b <;> rfl
    | error e => rfl
  · intro mac ip name netid mgr hmac hip
    unfold tool_unifi_create_dhcp_reservation
    rw [hmac, hip]
    cases mgr with
    | ok b => cases b <;> rfl
    | error e => rfl

/-- Witness for C2's amended claim at concrete inputs: the confirm-gated
refusals of the switch-port and firewall tools, and a DHCP mutation that
goes through with no confirmation involved. -/
theorem c2_confirm_gate_amended_witness :
    tool_toggle_switch_port true "aa:bb:cc:dd:ee:ff" 3 false false (.ok true)
      = (.ok (PyVal.dict
          [("success", PyVal.bool false),
           ("error", PyVal.str "Confirmation required. Set 'confirm' to true."),
           ("warning", PyVal.str
              "This will disable port 4 on switch aa:bb:cc:dd:ee:ff")]),
         false) ∧
    tool_toggle_firewall_policy true false "p1" (.ok []) (.ok true) (.ok [])
      = (.ok (errDict
          "Confirmation required to toggle policy. Set 'confirm' to true."),
         false) ∧
    (tool_unifi_set_client_fixed_ip "aa:bb:cc:dd:ee:ff" "192.168.1.50"
        Option.none (.ok false)).2 = true := by
  have h := c2_confirm_gate_amended
  exact ⟨(h.1 "aa:bb:cc:dd:ee:ff" 3 false (.ok true)).trans (by rfl),
    h.2.1 "p1" (.ok []) (.ok true) (.ok []),
    h.2.2.1 "aa:bb:cc:dd:ee:ff" "192.168.1.50" Option.none (.ok false)
      (by decide) (by decide)⟩

/-- C3 (counterexample).  `unifi_get_wan_status` and
`unifi_list_dhcp_reservations` perform no permission check of any kind:
whatever the loaded policy says, they invoke the manager and return its
payload. -/
theorem c3_permission_gate_counterexample :
    (tool_unifi_get_wan_status (.ok (PyVal.dict
        [("success", PyVal.bool true),
         ("gateway_mac", PyVal.str "aa:bb:cc:dd:ee:ff")]))).2 = true ∧
    (tool_unifi_get_wan_status (.ok (PyVal.dict
        [("success", PyVal.bool true),
         ("gateway_mac", PyVal.str "aa:bb:cc:dd:ee:ff")]))).1
      = .ok (PyVal.dict
          [("success", PyVal.bool true),
           ("gateway_mac", PyVal.str "aa:bb:cc:dd:ee:ff")]) ∧
    (tool_unifi_list_dhcp_reservations (.ok [])).2 = true ∧
    (tool_unifi_list_dhcp_reservations (.ok [])).1
      = .ok (PyVal.dict
          [("success", PyVal.bool true), ("count", PyVal.int 0),
           ("reservations", PyVal.list [])]) :=
  ⟨rfl, rfl, rfl, rfl⟩

/-- C3 (amended).  The policy-listing, policy-toggling and switch-port
handlers check their capability first and, when it is denied, return
`success: false` with an error starting with "Permission denied" without
calling the manager; but the firewall listing tools
`unifi_list_firewall_zones` and `unifi_list_ip_groups`, the DHCP tools
and the WAN tools perform no permission check at all and always proceed
to the manager call. -/
theorem c3_permission_gate_amended :
    (∀ (site : String) (mgr : Except String (List Assoc)),
      tool_list_firewall_policies false site mgr
        = (.ok (errDict "Permission denied to list firewall policies."), false)) ∧
    ("Permission denied".data.isPrefixOf
      "Permission denied to list firewall policies.".data = true) ∧
    (∀ (device_mac : String) (port_idx : Int) (enabled confirm : Bool)
        (mgr : Except String Bool),
      tool_toggle_switch_port false device_mac port_idx enabled confirm mgr
        = (.ok (errDict "Permission denied"), false)) ∧
    (∀ (confirm : Bool) (policy_id : String) (m1 : Except String (List Assoc))
        (m2 : Except String Bool) (m3 : Except String (List Assoc)),
      tool_toggle_firewall_policy false confirm policy_id m1 m2 m3
        = (.ok (errDict "Permission denied to toggle firewall policy."), false)) ∧
    (∀ mgr : Except String (List Assoc),
      (tool_unifi_list_dhcp_reservations mgr).2 = true) ∧
    (∀ mgr : Except String PyVal,
      (tool_unifi_get_wan_status mgr).2 = true) ∧
    (∀ mgr : Except String (List PyVal),
      (tool_list_firewall_zones mgr).2 = true) ∧
    (∀ mgr : Except String (List PyVal),
      (tool_list_ip_groups mgr).2 = true) := by
  refine ⟨?_, by decide, ?_, ?_, ?_, ?_, ?_, ?_⟩
  · intro site mgr; rfl
  · intro device_mac port_idx enabled confirm mgr; rfl
  · intro confirm policy_id m1 m2 m3; rfl
  · intro mgr; cases mgr <;> rfl
  · intro mgr; cases mgr <;> rfl
  · intro mgr; cases mgr <;> rfl
  · intro mgr; cases mgr <;> rfl

/-- Witness for C3's amended claim at concrete inputs: a denied gated
handler, and three ungated handlers reaching the manager. -/
theorem c3_permission_gate_amended_witness :
    tool_list_firewall_policies false "default" (.ok [])
      = (.ok (errDict "Permission denied to list firewall policies."), false) ∧
    tool_toggle_switch_port false "aa:bb:cc:dd:ee:ff" 0 true true (.ok true)
      = (.ok (errDict "Permission denied"), false) ∧
    (tool_unifi_get_wan_status (.error "ConnectionError")).2 = true ∧
    (tool_list_firewall_zones (.ok [])).2 = true ∧
    (tool_list_ip_groups (.ok [])).2 = true := by
  have h := c3_permission_gate_amended
  exact ⟨h.1 "default" (.ok []),
    h.2.2.1 "aa:bb:cc:dd:ee:ff" 0 true true (.ok true),
    h.2.2.2.2.2.1 (.error "ConnectionError"),
    h.2.2.2.2.2.2.1 (.ok []),
    h.2.2.2.2.2.2.2 (.ok [])⟩

/-- C4 (counterexample).  `unifi_list_firewall_zones` has no
`try`/`except`: when the firewall-manager call raises, the exception
escapes the handler instead of becoming a structured dictionary; likewise
`unifi_list_ip_groups`. -/
theorem c4_no_propagation_counterexample :
    tool_list_firewall_zones (.error "ConnectionError: controller unreachable")
      = (.error "ConnectionError: controller unreachable", true) ∧
    tool_list_ip_groups (.error "ConnectionError: controller unreachable")
      = (.error "ConnectionError: controller unreachable", true) :=
  ⟨rfl, rfl⟩

/-- C4 (amended).  Every modelled tool handler except
`unifi_list_firewall_zones` and `unifi_list_ip_groups` returns a normal
(non-raising) result for every input and every manager outcome, raising
included; those two propagate a raising manager call unchanged, and
return a structured dictionary only when the manager returns normally. -/
theorem c4_no_propagation_amended :
    (∀ e : String,
      tool_list_firewall_zones (.error e) = (.error e, true) ∧
      tool_list_ip_groups (.error e) = (.error e, true)) ∧
    (∀ zones : List PyVal,
      tool_list_firewall_zones (.ok zones)
        = (.ok (PyVal.dict
            [("success", PyVal.bool true),
             ("count", PyVal.int zones.length),
             ("zones", PyVal.list zones)]), true)) ∧
    (∀ (perm : Bool) (device_mac : String) (port_idx : Int)
        (enabled confirm : Bool) (mgr : Except String Bool),
      ∃ v, (tool_toggle_switch_port perm device_mac port_idx enabled confirm
        mgr).1 = .ok v) ∧
    (∀ (perm confirm : Bool) (policy_id : String)
        (m1 : Except String (List Assoc)) (m2 : Except String Bool)
        (m3 : Except String (List Assoc)),
      ∃ v, (tool_toggle_firewall_policy perm confirm policy_id m1 m2 m3).1
        = .ok v) ∧
    (∀ (mac ip : String) (netid : Option String) (mgr : Except String Bool),
      ∃ v, (tool_unifi_set_client_fixed_ip mac ip netid mgr).1 = .ok v) ∧
    (∀ (mac ip : String) (name netid : Option String)
        (mgr : Except String Bool),
      ∃ v, (tool_unifi_create_dhcp_reservation mac ip name netid mgr).1
        = .ok v) ∧
    (∀ mgr : Except String (List Assoc),
      ∃ v, (tool_unifi_list_dhcp_reservations mgr).1 = .ok v) ∧
    (∀ mgr : Except String PyVal,
      ∃ v, (tool_unifi_get_wan_status mgr).1 = .ok v) ∧
    (∀ (perm : Bool) (site : String) (mgr : Except String (List Assoc)),
      ∃ v, (tool_list_firewall_policies perm site mgr).1 = .ok v) := by
  refine ⟨?_, ?_, ?_, ?_, ?_, ?_, ?_, ?_, ?_⟩
  · intro e; exact ⟨rfl, rfl⟩
  · intro zones; rfl
  · intro perm device_mac port_idx enabled confirm mgr
    unfold tool_toggle_switch_port
    repeat' split
    all_goals exact ⟨_, rfl⟩
  · intro perm confirm policy_id m1 m2 m3
    unfold tool_toggle_firewall_policy
    repeat' split
    all_goals exact ⟨_, rfl⟩
  · intro mac ip netid mgr
    unfold tool_unifi_set_client_fixed_ip
    repeat' split
    all_goals exact ⟨_, rfl⟩
  · intro mac ip name netid mgr
    unfold tool_unifi_create_dhcp_reservation
    repeat' split
    all_goals exact ⟨_, rfl⟩
  · intro mgr
    unfold tool_unifi_list_dhcp_reservations
    repeat' split
    all_goals exact ⟨_, rfl⟩
  · intro mgr
    unfold tool_unifi_get_wan_status
    repeat' split
    all_goals exact ⟨_, rfl⟩
  · intro perm site mgr
    unfold tool_list_firewall_policies
    repeat' split
    all_goals exact ⟨_, rfl⟩

/-- Witness for C4's amended claim at concrete inputs: the propagation of
a concrete raise through the two uncaught handlers, and a caught raise in
a gated handler. -/
theorem c4_no_propagation_amended_witness :
    tool_list_firewall_zones (.error "TimeoutError")
      = (.error "TimeoutError", true) ∧
    tool_list_ip_groups (.error "TimeoutError")
      = (.error "TimeoutError", true) ∧
    (tool_toggle_switch_port true "aa:bb:cc:dd:ee:ff" 0 true true
        (.error "TimeoutError")).1
      = .ok (errDict "TimeoutError") := by
  have h := c4_no_propagation_amended
  have hz := h.1 "TimeoutError"
  refine ⟨hz.1, hz.2, ?_⟩
  obtain ⟨v, hv⟩ := h.2.2.1 true "aa:bb:cc:dd:ee:ff" 0 true true
    (.error "TimeoutError")
  exact hv.trans (by rw [show v = errDict "TimeoutError" from by
    have := hv.symm.trans (rfl :
      (tool_toggle_switch_port true "aa:bb:cc:dd:ee:ff" 0 true true
        (.error "TimeoutError")).1 = .ok (errDict "TimeoutError"))
    exact (Except.ok.injEq .. ▸ this : v = errDict "TimeoutError")])

end UnifiMcp
